import Mathlib

/-!
# bubblog: the view-state machine of `app/main.go`

A shallow embedding of the Bubble Tea program in `src/app/main.go`:
the `model`, its `Update` dispatcher with the two sub-dispatchers
`updateMenu` and `updateFilePicker`, and the `View` renderer.

The two widgets (`list.Model`, `filepicker.Model` of the `bubbles`
library), the `lipgloss` style and the commands the widgets produce are
external to the repository.  They enter the embedding as the fields of a
record `Widgets`; every theorem quantifies over that record.

The model holds the widgets through pointers that are never re-seated;
`*m.menu.list, cmd = ...` and `SetSize` overwrite the pointee.  The
embedding threads the pointee's value through the model.
-/

namespace Bubblog

/-! ## Data model -/

/-- Go `type sessionState int`. -/
abbrev sessionState := Int

/-- First constant of the `iota` block. -/
abbrev menuView : sessionState := 0

/-- Second constant of the `iota` block. -/
abbrev fileSelectView : sessionState := 1

/-- Third constant of the `iota` block. -/
abbrev logView : sessionState := 2

/-- The list entry `item` with its title and description. -/
structure item where
  title : String
  desc : String
  deriving DecidableEq, Repr

/-- A `tea.Msg` as far as the program tells messages apart: a key press
(kept as the text `msg.String()` gives), the private `clearErrorMsg`, a
terminal resize, or a message of any other dynamic type `ε`. -/
inductive Msg (ε : Type) where
  | KeyMsg (s : String)
  | clearErrorMsg
  | WindowSizeMsg (Width Height : Int)
  | other (e : ε)
  deriving DecidableEq, Repr

/-- The two sentinel errors of `strconv`. -/
inductive NumErrKind where
  | ErrSyntax
  | ErrRange
  deriving DecidableEq, Repr

/-- A Go `error` value as the program can build one: `errors.New text`, or
the `*strconv.NumError` that `strconv.Atoi` returns. -/
inductive GoError where
  | New (text : String)
  | NumError (Func Num : String) (Err : NumErrKind)
  deriving DecidableEq, Repr

/-- Go `time.Second`, a `time.Duration` counted in nanoseconds. -/
abbrev Second : Int := 1000000000

/-- A `tea.Cmd`: `nil`, a command made by a widget (`κ`), `tea.Quit`,
`tea.Tick d f` for a function `f` that ignores the time and delivers `msg`,
or the call `tea.Batch cmds...` with its arguments in order. -/
inductive Cmd (κ ε : Type) where
  | nil
  | widget (c : κ)
  | Quit
  | Tick (d : Int) (msg : Msg ε)
  | Batch (cmds : List (Cmd κ ε))

/-- A widget's own command, `nil` when it has none. -/
def Cmd.ofWidget {κ ε : Type} : Option κ → Cmd κ ε
  | none => Cmd.nil
  | some c => Cmd.widget c

mutual
/-- Whether a command is, or batches, a `tea.Tick`. -/
def Cmd.hasTick {κ ε : Type} : Cmd κ ε → Bool
  | Cmd.Tick _ _ => true
  | Cmd.Batch cs => Cmd.anyHasTick cs
  | _ => false
/-- Whether one of the commands is, or batches, a `tea.Tick`. -/
def Cmd.anyHasTick {κ ε : Type} : List (Cmd κ ε) → Bool
  | [] => false
  | c :: cs => c.hasTick || Cmd.anyHasTick cs
end

/-! ## `strconv.Atoi` (Go standard library, 64-bit `int`) -/

/-- One round of the digit loop of `strconv.ParseUint` in base 10 with
`bitSize = 64`: a byte that is no digit is a syntax error, an overflow of
`n*10` or of `n*10 + d` is a range error. -/
def parseUintStep (acc : Except NumErrKind Nat) (c : Char) : Except NumErrKind Nat :=
  match acc with
  | Except.error e => Except.error e
  | Except.ok n =>
    if c.isDigit then
      if n ≥ (2 ^ 64 - 1) / 10 + 1 then Except.error NumErrKind.ErrRange
      else
        let n1 := n * 10 + (c.toNat - 48)
        if n1 > 2 ^ 64 - 1 then Except.error NumErrKind.ErrRange else Except.ok n1
    else Except.error NumErrKind.ErrSyntax

/-- Go `strconv.ParseUint(s, 10, 64)` on the characters of `s`. -/
def parseUint (cs : List Char) : Except NumErrKind Nat :=
  if cs = [] then Except.error NumErrKind.ErrSyntax
  else cs.foldl parseUintStep (Except.ok 0)

/-- Go `strconv.Atoi` where `int` has 64 bits: the value and the error.
The short-input fast path of the library computes the same pair as the
`ParseInt` path written here. -/
def Atoi (s : String) : Int × Option GoError :=
  let cs := s.toList
  if cs = [] then (0, some (GoError.NumError "Atoi" s NumErrKind.ErrSyntax))
  else
    let neg : Bool := cs.head? = some '-'
    let ds := match cs with
      | '+' :: r => r
      | '-' :: r => r
      | _ => cs
    match parseUint ds with
    | Except.error NumErrKind.ErrSyntax =>
      (0, some (GoError.NumError "Atoi" s NumErrKind.ErrSyntax))
    | Except.error NumErrKind.ErrRange =>
      if neg then (-(2 ^ 63), some (GoError.NumError "Atoi" s NumErrKind.ErrRange))
      else (2 ^ 63 - 1, some (GoError.NumError "Atoi" s NumErrKind.ErrRange))
    | Except.ok un =>
      if !neg && un ≥ 2 ^ 63 then
        (2 ^ 63 - 1, some (GoError.NumError "Atoi" s NumErrKind.ErrRange))
      else if neg && un > 2 ^ 63 then
        (-(2 ^ 63), some (GoError.NumError "Atoi" s NumErrKind.ErrRange))
      else (if neg then -(un : Int) else (un : Int), none)

/-! ## The external widgets -/

/-- What the program uses of its external collaborators.
`listSelectedItem` is `SelectedItem().(item)`: `none` when the type
assertion fails (no highlighted item, or one of another type).
`docStyleFrameSize` is `docStyle.GetFrameSize()`. -/
structure Widgets where
  ListModel : Type
  PickerModel : Type
  WCmd : Type
  Ext : Type
  listSelectedItem : ListModel → Option item
  listSetSize : ListModel → Int → Int → ListModel
  listUpdate : ListModel → Msg Ext → ListModel × Option WCmd
  listView : ListModel → String
  pickerInit : PickerModel → Option WCmd
  pickerUpdate : PickerModel → Msg Ext → PickerModel × Option WCmd
  DidSelectFile : PickerModel → Msg Ext → Bool × String
  DidSelectDisabledFile : PickerModel → Msg Ext → Bool × String
  pickerView : PickerModel → String
  renderDisabledFile : PickerModel → String → String
  renderSelected : PickerModel → String → String
  docStyleFrameSize : Int × Int
  docStyleRender : String → String
  Quote : String → String

/-- Go `filePickerModel`. -/
structure filePickerModel (W : Widgets) where
  filepicker : W.PickerModel
  selectedFile : String

/-- Go `menuModel`. -/
structure menuModel (W : Widgets) where
  list : W.ListModel
  option : Int

/-- Go `model`; `err = none` is the `nil` error. -/
structure model (W : Widgets) where
  state : sessionState
  menu : menuModel W
  fp : filePickerModel W
  quitting : Bool
  err : Option GoError

/-- The commands of the program over a widget kit. -/
abbrev TeaCmd (W : Widgets) := Cmd W.WCmd W.Ext

/-! ## Update -/

/-- Go `clearErrorAfter`: a tick that delivers `clearErrorMsg`. -/
def clearErrorAfter (W : Widgets) (t : Int) : TeaCmd W :=
  Cmd.Tick t Msg.clearErrorMsg

/-- Lines 104 to 107 of `updateMenu`: the list widget takes the message and
its command is returned. -/
def menuForward (W : Widgets) (msg : Msg W.Ext) (m : model W) : model W × TeaCmd W :=
  let r := W.listUpdate m.menu.list msg
  ({ m with menu := { m.menu with list := r.1 } }, Cmd.ofWidget r.2)

/-- The value a Go `int` of 64 bits holds after an arithmetic result `x`:
`x` itself from `-2^63` to `2^63 - 1`, wrapped around modulo `2^64`
outside. -/
def wrapInt (x : Int) : Int := (x + 2 ^ 63) % 2 ^ 64 - 2 ^ 63

/-- Go `updateMenu`.  The subtractions `msg.Width-h` and `msg.Height-v` are
Go `int` subtractions, which wrap around. -/
def updateMenu (W : Widgets) (msg : Msg W.Ext) (m : model W) : model W × TeaCmd W :=
  match msg with
  | Msg.KeyMsg s =>
    if s = "ctrl+c" then ({ m with quitting := true }, Cmd.Quit)
    else if s = "enter" then
      match W.listSelectedItem m.menu.list with
      | some i =>
        if i.desc = "2" then
          let r := Atoi i.desc
          menuForward W msg
            { m with state := fileSelectView, menu := { m.menu with option := r.1 }, err := r.2 }
        else menuForward W msg m
      | none => menuForward W msg m
    else menuForward W msg m
  | Msg.WindowSizeMsg Width Height =>
    let h := W.docStyleFrameSize.1
    let v := W.docStyleFrameSize.2
    menuForward W msg
      { m with menu := { m.menu with
          list := W.listSetSize m.menu.list (wrapInt (Width - h)) (wrapInt (Height - v)) } }
  | _ => menuForward W msg m

/-- Lines 126 to 144 of `updateFilePicker`: the picker takes the message,
then both selection queries are asked of the updated picker. -/
def pickerForward (W : Widgets) (msg : Msg W.Ext) (m : model W) : model W × TeaCmd W :=
  let r := W.pickerUpdate m.fp.filepicker msg
  let m1 : model W := { m with fp := { m.fp with filepicker := r.1 } }
  let cmd : TeaCmd W := Cmd.ofWidget r.2
  let s := W.DidSelectFile r.1 msg
  let m2 : model W := if s.1 then { m1 with fp := { m1.fp with selectedFile := s.2 } } else m1
  let d := W.DidSelectDisabledFile r.1 msg
  if d.1 then
    ({ m2 with err := some (GoError.New (d.2 ++ " is not valid.")),
               fp := { m2.fp with selectedFile := "" } },
      Cmd.Batch [cmd, clearErrorAfter W (2 * Second)])
  else (m2, cmd)

/-- Go `updateFilePicker`. -/
def updateFilePicker (W : Widgets) (msg : Msg W.Ext) (m : model W) : model W × TeaCmd W :=
  match msg with
  | Msg.KeyMsg s =>
    if s = "ctrl+c" ∨ s = "q" then ({ m with quitting := true }, Cmd.Quit)
    else if s = "esc" then ({ m with state := menuView }, Cmd.nil)
    else pickerForward W msg m
  | Msg.clearErrorMsg => pickerForward W msg { m with err := none }
  | _ => pickerForward W msg m

/-- Lines 75 to 79 of `Update`: the switch on `m.state`. -/
def dispatch (W : Widgets) (m : model W) (msg : Msg W.Ext) : model W × TeaCmd W :=
  if m.state = fileSelectView then updateFilePicker W msg m else updateMenu W msg m

/-- Go `model.Update`. -/
def Update (W : Widgets) (m : model W) (msg : Msg W.Ext) : model W × TeaCmd W :=
  match msg with
  | Msg.KeyMsg s =>
    if s = "ctrl+c" ∨ s = "q" then ({ m with quitting := true }, Cmd.Quit)
    else dispatch W m msg
  | Msg.clearErrorMsg => dispatch W { m with err := none } msg
  | _ => dispatch W m msg

/-- Go `model.Init`. -/
def Init (W : Widgets) (m : model W) : TeaCmd W :=
  Cmd.ofWidget (W.pickerInit m.fp.filepicker)

/-- The model built in `main` around the list `l` and the picker `fp`. -/
def initialModel (W : Widgets) (l : W.ListModel) (fp : W.PickerModel) : model W :=
  { state := menuView
    menu := { list := l, option := 0 }
    fp := { filepicker := fp, selectedFile := "" }
    quitting := false
    err := none }

/-- The driver's loop on the model alone: each message goes through
`Update`, in order. -/
def run (W : Widgets) (m : model W) (msgs : List (Msg W.Ext)) : model W :=
  msgs.foldl (fun acc msg => (Update W acc msg).1) m

/-! ## View -/

/-- Go `error.Error()`. -/
def GoError.Error (quote : String → String) : GoError → String
  | GoError.New text => text
  | GoError.NumError f num NumErrKind.ErrSyntax =>
    "strconv." ++ f ++ ": parsing " ++ quote num ++ ": invalid syntax"
  | GoError.NumError f num NumErrKind.ErrRange =>
    "strconv." ++ f ++ ": parsing " ++ quote num ++ ": value out of range"

/-- Go `model.viewFilePicker`. -/
def viewFilePicker (W : Widgets) (m : model W) : String :=
  if m.quitting then ""
  else
    let header :=
      match m.err with
      | some e => W.renderDisabledFile m.fp.filepicker (e.Error W.Quote)
      | none =>
        if m.fp.selectedFile = "" then "Pick a file:"
        else "Selected file: " ++ W.renderSelected m.fp.filepicker m.fp.selectedFile
    "\n  " ++ header ++ ("\n\n" ++ W.pickerView m.fp.filepicker ++ "\n")

/-- Go `model.viewMenu`. -/
def viewMenu (W : Widgets) (m : model W) : String :=
  W.docStyleRender (W.listView m.menu.list)

/-- Go `model.View`. -/
def View (W : Widgets) (m : model W) : String :=
  if m.quitting then ""
  else if m.state = menuView then viewMenu W m
  else if m.state = fileSelectView then viewFilePicker W m
  else "oopsie"

/-! ## A small concrete widget kit -/

/-- A list widget reduced to its items and cursor. -/
structure DemoList where
  items : List item
  index : Nat
  width : Int
  height : Int
  deriving DecidableEq, Repr

/-- A file picker reduced to its entries (path, allowed) and cursor. -/
structure DemoPicker where
  files : List (String × Bool)
  selected : Nat
  deriving DecidableEq, Repr

/-- Cursor movement of the demo list. -/
def DemoList.update (l : DemoList) : Msg Unit → DemoList × Option Nat
  | Msg.KeyMsg s =>
    if s = "down" then ({ l with index := min (l.index + 1) (l.items.length - 1) }, none)
    else if s = "up" then ({ l with index := l.index - 1 }, none)
    else (l, none)
  | _ => (l, none)

/-- Cursor movement of the demo picker; "enter" yields a command. -/
def DemoPicker.update (f : DemoPicker) : Msg Unit → DemoPicker × Option Nat
  | Msg.KeyMsg s =>
    if s = "down" then ({ f with selected := min (f.selected + 1) (f.files.length - 1) }, none)
    else if s = "up" then ({ f with selected := f.selected - 1 }, none)
    else if s = "enter" then (f, some 1)
    else (f, none)
  | _ => (f, none)

/-- The entry under the cursor when "enter" is pressed. -/
def DemoPicker.entered (f : DemoPicker) : Msg Unit → Option (String × Bool)
  | Msg.KeyMsg s => if s = "enter" then f.files.get? f.selected else none
  | _ => none

/-- A selection of an allowed file. -/
def DemoPicker.didSelectFile (f : DemoPicker) (msg : Msg Unit) : Bool × String :=
  match f.entered msg with
  | some (path, true) => (true, path)
  | _ => (false, "")

/-- A selection of a file that is not allowed. -/
def DemoPicker.didSelectDisabledFile (f : DemoPicker) (msg : Msg Unit) : Bool × String :=
  match f.entered msg with
  | some (path, false) => (true, path)
  | _ => (false, "")

/-- The concrete kit: both selection queries answer on "enter" only. -/
def demoWidgets : Widgets where
  ListModel := DemoList
  PickerModel := DemoPicker
  WCmd := Nat
  Ext := Unit
  listSelectedItem := fun l => l.items.get? l.index
  listSetSize := fun l w h => { l with width := w, height := h }
  listUpdate := DemoList.update
  listView := fun l => String.intercalate "\n" (l.items.map item.title)
  pickerInit := fun _ => some 0
  pickerUpdate := DemoPicker.update
  DidSelectFile := DemoPicker.didSelectFile
  DidSelectDisabledFile := DemoPicker.didSelectDisabledFile
  pickerView := fun f => String.intercalate "\n" (f.files.map Prod.fst)
  renderDisabledFile := fun _ s => s
  renderSelected := fun _ s => s
  docStyleFrameSize := (4, 2)
  docStyleRender := fun s => s
  Quote := fun s => "\"" ++ s ++ "\""

/-- A kit whose picker reports every entered file as selected, also a
disabled one: both queries can answer for the same event. -/
def overlapWidgets : Widgets :=
  { demoWidgets with
    DidSelectFile := fun (f : DemoPicker) msg =>
      match f.entered msg with
      | some (path, _) => (true, path)
      | none => (false, "") }

/-- The two menu entries of `main`. -/
def mainItems : List item :=
  [{ title := "Open previously opened log file", desc := "1" },
   { title := "Select log file", desc := "2" }]

/-- The menu list with the cursor on its first entry. -/
def demoList : DemoList := { items := mainItems, index := 0, width := 0, height := 0 }

/-- The menu list with the cursor on "Select log file". -/
def demoListOnTwo : DemoList := { demoList with index := 1 }

/-- A picker showing one allowed and one disabled file, cursor on the
disabled one. -/
def demoPicker : DemoPicker :=
  { files := [("/home/u/notes.txt", true), ("/etc/shadow", false)], selected := 1 }

/-- The picker with the cursor on the allowed file. -/
def demoPickerOnAllowed : DemoPicker := { demoPicker with selected := 0 }

/-- The model of `main` over the demo kit. -/
def demoStart : model demoWidgets := initialModel demoWidgets demoList demoPicker

/-- The menu with the cursor on entry "2". -/
def demoMenuOnTwo : model demoWidgets := initialModel demoWidgets demoListOnTwo demoPicker

/-- The file picker screen, cursor on the disabled file. -/
def demoPicking : model demoWidgets :=
  { demoMenuOnTwo with state := fileSelectView, menu := { demoMenuOnTwo.menu with option := 2 } }

/-- The file picker screen over the overlapping kit. -/
def overlapPicking : model overlapWidgets :=
  { state := fileSelectView
    menu := { list := demoListOnTwo, option := 2 }
    fp := { filepicker := demoPicker, selectedFile := "/home/u/notes.txt" }
    quitting := false
    err := none }

/-- The file picker screen while a disabled-file notice is shown. -/
def demoPickingWithErr : model demoWidgets :=
  { demoPicking with err := some (GoError.New "/etc/shadow is not valid.") }

/-- The keys that lead from the start of `main` to the menu with a notice
still shown: pick entry "2", select the disabled file, leave with "esc". -/
def keysToMenuWithErr : List (Msg Unit) :=
  [Msg.KeyMsg "down", Msg.KeyMsg "enter", Msg.KeyMsg "enter", Msg.KeyMsg "esc"]

/-- The file picker screen, cursor on the allowed file. -/
def demoPickingAllowed : model demoWidgets :=
  { demoPicking with fp := { filepicker := demoPickerOnAllowed, selectedFile := "" } }

/-- The model as the global switch of `Update` leaves it for a message that
is not a quit key: `err` is cleared by `clearErrorMsg` and by nothing else. -/
def afterGlobal (W : Widgets) (m : model W) : Msg W.Ext → model W
  | Msg.clearErrorMsg => { m with err := none }
  | _ => m

/-- The picker screen after a quit key: a notice and a selection are still
held, `quitting` is set. -/
def demoQuitting : model demoWidgets :=
  { demoPickingWithErr with
    fp := { filepicker := demoPicker, selectedFile := "/home/u/notes.txt" }
    quitting := true }

/-- The picker screen holding a notice and a selected file at once. -/
def demoErrAndSelected : model demoWidgets :=
  { demoPickingWithErr with
    fp := { filepicker := demoPicker, selectedFile := "/home/u/notes.txt" } }

/-- The model of `main` with the state set to `logView`, which no run
produces. -/
def demoLog : model demoWidgets := { demoMenuOnTwo with state := logView }

/-! ## Shared lemmas -/

theorem Atoi_two : Atoi "2" = (2, none) := by decide

/-- The parse on signs, on text that is no number and at the edge of the
64-bit range. -/
theorem Atoi_samples :
    Atoi "-12" = (-12, none) ∧
    Atoi "+7" = (7, none) ∧
    Atoi "x" = (0, some (GoError.NumError "Atoi" "x" NumErrKind.ErrSyntax)) ∧
    Atoi "" = (0, some (GoError.NumError "Atoi" "" NumErrKind.ErrSyntax)) ∧
    Atoi "9223372036854775808" = (9223372036854775807,
      some (GoError.NumError "Atoi" "9223372036854775808" NumErrKind.ErrRange)) ∧
    Atoi "-9223372036854775808" = (-9223372036854775808, none) := by
  decide

/-- A non-quit key passes the global switch of `Update`. -/
theorem Update_key (W : Widgets) (m : model W) (s : String)
    (h1 : s ≠ "ctrl+c") (h2 : s ≠ "q") :
    Update W m (Msg.KeyMsg s) = dispatch W m (Msg.KeyMsg s) := by
  simp [Update, h1, h2]

/-- In a state other than `fileSelectView`, "enter" on entry "2" runs the
assignment of line 96 and then forwards the key to the list. -/
theorem updateMenu_enter_two (W : Widgets) (m : model W) (i : item)
    (hi : W.listSelectedItem m.menu.list = some i) (hd : i.desc = "2") :
    updateMenu W (Msg.KeyMsg "enter") m =
      menuForward W (Msg.KeyMsg "enter")
        { m with state := fileSelectView, menu := { m.menu with option := 2 }, err := none } := by
  simp [updateMenu, hi, hd, Atoi_two]

/-- In a state other than `fileSelectView`, "enter" on anything else only
forwards the key to the list. -/
theorem updateMenu_enter_other (W : Widgets) (m : model W)
    (hi : ∀ i, W.listSelectedItem m.menu.list = some i → i.desc ≠ "2") :
    updateMenu W (Msg.KeyMsg "enter") m = menuForward W (Msg.KeyMsg "enter") m := by
  unfold updateMenu
  cases hsel : W.listSelectedItem m.menu.list with
  | none => simp
  | some i => simp [hi i hsel]

/-- In `fileSelectView` a message that is neither a quit key nor "esc" is
handed to the picker, after the global handling of `clearErrorMsg`. -/
theorem Update_fileSelect_forward (W : Widgets) (m : model W) (msg : Msg W.Ext)
    (hs : m.state = fileSelectView)
    (hc : msg ≠ Msg.KeyMsg "ctrl+c") (hq : msg ≠ Msg.KeyMsg "q") (he : msg ≠ Msg.KeyMsg "esc") :
    Update W m msg = pickerForward W msg (afterGlobal W m msg) := by
  cases msg with
  | KeyMsg s =>
    have h1 : s ≠ "ctrl+c" := fun h => hc (by rw [h])
    have h2 : s ≠ "q" := fun h => hq (by rw [h])
    have h3 : s ≠ "esc" := fun h => he (by rw [h])
    simp [Update, dispatch, updateFilePicker, afterGlobal, hs, h1, h2, h3]
  | clearErrorMsg => simp [Update, dispatch, updateFilePicker, afterGlobal, hs]
  | WindowSizeMsg w h => simp [Update, dispatch, updateFilePicker, afterGlobal, hs]
  | other e => simp [Update, dispatch, updateFilePicker, afterGlobal, hs]

/-- The global handling touches `err` only. -/
theorem afterGlobal_picker (W : Widgets) (m : model W) (msg : Msg W.Ext) :
    (afterGlobal W m msg).fp = m.fp ∧ (afterGlobal W m msg).state = m.state ∧
    (afterGlobal W m msg).menu = m.menu ∧ (afterGlobal W m msg).quitting = m.quitting := by
  cases msg <;> simp [afterGlobal]

/-- Forwarding to the list keeps everything but the list. -/
theorem menuForward_fields (W : Widgets) (msg : Msg W.Ext) (m : model W) :
    (menuForward W msg m).1.state = m.state ∧ (menuForward W msg m).1.err = m.err ∧
    (menuForward W msg m).1.menu.option = m.menu.option ∧
    (menuForward W msg m).1.fp = m.fp ∧ (menuForward W msg m).1.quitting = m.quitting := by
  simp [menuForward]

/-- Forwarding to the picker keeps the state, and keeps or sets `err`. -/
theorem pickerForward_err (W : Widgets) (msg : Msg W.Ext) (m : model W) :
    (pickerForward W msg m).1.state = m.state ∧
    ((W.DidSelectDisabledFile (W.pickerUpdate m.fp.filepicker msg).1 msg).1 = true →
      (pickerForward W msg m).1.err = some (GoError.New
        ((W.DidSelectDisabledFile (W.pickerUpdate m.fp.filepicker msg).1 msg).2 ++ " is not valid."))) ∧
    ((W.DidSelectDisabledFile (W.pickerUpdate m.fp.filepicker msg).1 msg).1 = false →
      (pickerForward W msg m).1.err = m.err) := by
  refine ⟨?_, ?_, ?_⟩
  · simp only [pickerForward]
    split <;> split <;> rfl
  · intro h
    simp [pickerForward, h]
  · intro h
    simp only [pickerForward, h]
    simp only [Bool.false_eq_true, if_false]
    split <;> rfl

/-- Forwarding to the picker never empties a set `err`. -/
theorem pickerForward_err_ne_none (W : Widgets) (msg : Msg W.Ext) (m : model W)
    (h : m.err ≠ none) : (pickerForward W msg m).1.err ≠ none := by
  cases hd : (W.DidSelectDisabledFile (W.pickerUpdate m.fp.filepicker msg).1 msg).1 with
  | true => rw [(pickerForward_err W msg m).2.1 hd]; simp
  | false => rw [(pickerForward_err W msg m).2.2 hd]; exact h

/-- A widget's own command is no tick. -/
theorem hasTick_ofWidget {κ ε : Type} (c : Option κ) :
    (Cmd.ofWidget c : Cmd κ ε).hasTick = false := by
  cases c <;> rfl

/-- One step of `Update` keeps the state, or goes to `fileSelectView` on
"enter" from another state, or goes from `fileSelectView` to `menuView` on
"esc". -/
theorem Update_state (W : Widgets) (m : model W) (msg : Msg W.Ext) :
    (Update W m msg).1.state = m.state ∨
    (m.state ≠ fileSelectView ∧ msg = Msg.KeyMsg "enter" ∧
      (Update W m msg).1.state = fileSelectView) ∨
    (m.state = fileSelectView ∧ msg = Msg.KeyMsg "esc" ∧
      (Update W m msg).1.state = menuView) := by
  by_cases hs : m.state = fileSelectView
  · cases msg with
    | KeyMsg s =>
      by_cases hq : s = "ctrl+c" ∨ s = "q"
      · left
        simp [Update, hq]
      · by_cases he : s = "esc"
        · right; right
          subst he
          simp [Update, dispatch, updateFilePicker, hs]
        · left
          simpa [Update, dispatch, updateFilePicker, hs, hq, he]
            using (pickerForward_err W (Msg.KeyMsg s) m).1
    | clearErrorMsg =>
      left
      simpa [Update, dispatch, updateFilePicker, hs]
        using (pickerForward_err W Msg.clearErrorMsg { m with err := none }).1
    | WindowSizeMsg w h =>
      left
      simpa [Update, dispatch, updateFilePicker, hs]
        using (pickerForward_err W (Msg.WindowSizeMsg w h) m).1
    | other e =>
      left
      simpa [Update, dispatch, updateFilePicker, hs]
        using (pickerForward_err W (Msg.other e) m).1
  · cases msg with
    | KeyMsg s =>
      by_cases hq : s = "ctrl+c" ∨ s = "q"
      · left
        simp [Update, hq]
      · have h1 : s ≠ "ctrl+c" := fun h => hq (Or.inl h)
        have h2 : s ≠ "q" := fun h => hq (Or.inr h)
        have hu : Update W m (Msg.KeyMsg s) = updateMenu W (Msg.KeyMsg s) m := by
          rw [Update_key W m s h1 h2]
          simp [dispatch, hs]
        rw [hu]
        by_cases hen : s = "enter"
        · subst hen
          by_cases htwo : ∃ i, W.listSelectedItem m.menu.list = some i ∧ i.desc = "2"
          · obtain ⟨i, hi, hd⟩ := htwo
            right; left
            rw [updateMenu_enter_two W m i hi hd]
            exact ⟨hs, rfl, by simp [menuForward]⟩
          · left
            rw [updateMenu_enter_other W m (fun i hi hd => htwo ⟨i, hi, hd⟩)]
            exact (menuForward_fields W _ m).1
        · left
          simp [updateMenu, h1, hen, menuForward]
    | clearErrorMsg =>
      left
      simp [Update, dispatch, updateMenu, hs, menuForward]
    | WindowSizeMsg w h =>
      left
      simp [Update, dispatch, updateMenu, hs, menuForward]
    | other e =>
      left
      simp [Update, dispatch, updateMenu, hs, menuForward]

/-- Feeding one more message at the end is one more `Update`. -/
theorem run_snoc (W : Widgets) (m : model W) (msgs : List (Msg W.Ext)) (msg : Msg W.Ext) :
    run W m (msgs ++ [msg]) = (Update W (run W m msgs) msg).1 := by
  simp [run, List.foldl_append]

/-- From the model of `main` only the first two view states are reached. -/
theorem run_state (W : Widgets) (l : W.ListModel) (fp : W.PickerModel)
    (msgs : List (Msg W.Ext)) :
    (run W (initialModel W l fp) msgs).state = menuView ∨
    (run W (initialModel W l fp) msgs).state = fileSelectView := by
  induction msgs using List.reverseRecOn with
  | nil => left; rfl
  | append_singleton msgs msg ih =>
    rw [run_snoc]
    rcases Update_state W (run W (initialModel W l fp) msgs) msg with h | h | h
    · rw [h]; exact ih
    · exact Or.inr h.2.2
    · exact Or.inl h.2.2

/-! ## C1: "enter" in the menu -/

/-- C1: in Menu state, "enter" on a highlighted item whose description is
"2" gives state FileSelect and option 2; on any other description, or with
no highlighted item, state stays Menu and the option is kept. -/
theorem C1_enter_in_menu (W : Widgets) (m : model W) (hs : m.state = menuView) :
    (∀ i, W.listSelectedItem m.menu.list = some i → i.desc = "2" →
      (Update W m (Msg.KeyMsg "enter")).1.state = fileSelectView ∧
      (Update W m (Msg.KeyMsg "enter")).1.menu.option = 2) ∧
    ((∀ i, W.listSelectedItem m.menu.list = some i → i.desc ≠ "2") →
      (Update W m (Msg.KeyMsg "enter")).1.state = menuView ∧
      (Update W m (Msg.KeyMsg "enter")).1.menu.option = m.menu.option) := by
  have hu : Update W m (Msg.KeyMsg "enter") = updateMenu W (Msg.KeyMsg "enter") m := by
    rw [Update_key W m "enter" (by decide) (by decide)]
    simp [dispatch, hs]
  refine ⟨?_, ?_⟩
  · intro i hi hd
    rw [hu, updateMenu_enter_two W m i hi hd]
    simp [menuForward]
  · intro hi
    rw [hu, updateMenu_enter_other W m hi]
    simp [menuForward, hs]

/-- C1 at the menu of `main`: cursor on "Select log file", and cursor on the
first entry. -/
theorem C1_enter_in_menu_witness :
    ((Update demoWidgets demoMenuOnTwo (Msg.KeyMsg "enter")).1.state = fileSelectView ∧
      (Update demoWidgets demoMenuOnTwo (Msg.KeyMsg "enter")).1.menu.option = 2) ∧
    ((Update demoWidgets demoStart (Msg.KeyMsg "enter")).1.state = menuView ∧
      (Update demoWidgets demoStart (Msg.KeyMsg "enter")).1.menu.option = 0) :=
  ⟨(C1_enter_in_menu demoWidgets demoMenuOnTwo rfl).1
      { title := "Select log file", desc := "2" } rfl rfl,
   (C1_enter_in_menu demoWidgets demoStart rfl).2 (by
      intro i hi
      have h : i = { title := "Open previously opened log file", desc := "1" } :=
        (Option.some.inj hi).symm
      rw [h]
      decide)⟩

/-! ## C2: a disabled file sets `err` and clears `selectedFile` -/

/-- C2: in FileSelect state, for an event that is neither a quit key nor
"esc", if the updated picker reports a disabled file with path `p`, the
returned model has `err` = the error with text `p ++ " is not valid."` and
an empty `selectedFile`, whatever the picker answers to the valid-selection
query for the same event. -/
theorem C2_disabled_selection (W : Widgets) (m : model W) (msg : Msg W.Ext) (p : String)
    (hs : m.state = fileSelectView)
    (hc : msg ≠ Msg.KeyMsg "ctrl+c") (hq : msg ≠ Msg.KeyMsg "q") (he : msg ≠ Msg.KeyMsg "esc")
    (hd : W.DidSelectDisabledFile (W.pickerUpdate m.fp.filepicker msg).1 msg = (true, p)) :
    (Update W m msg).1.err = some (GoError.New (p ++ " is not valid.")) ∧
    (Update W m msg).1.fp.selectedFile = "" := by
  rw [Update_fileSelect_forward W m msg hs hc hq he]
  have hfp := (afterGlobal_picker W m msg).1
  simp [pickerForward, hfp, hd]

/-- C2 where the picker answers both queries with yes for the same "enter":
the disabled-selection branch decides. -/
theorem C2_disabled_selection_witness :
    (overlapWidgets.DidSelectFile
        (overlapWidgets.pickerUpdate overlapPicking.fp.filepicker (Msg.KeyMsg "enter")).1
        (Msg.KeyMsg "enter")).1 = true ∧
    (Update overlapWidgets overlapPicking (Msg.KeyMsg "enter")).1.err
      = some (GoError.New ("/etc/shadow" ++ " is not valid.")) ∧
    (Update overlapWidgets overlapPicking (Msg.KeyMsg "enter")).1.fp.selectedFile = "" :=
  ⟨rfl, C2_disabled_selection overlapWidgets overlapPicking (Msg.KeyMsg "enter") "/etc/shadow"
    rfl (by simp) (by simp) (by simp) rfl⟩

/-! ## C3: which events empty a set `err` -/

/-- C3 (as stated) fails: from the start of `main`, after picking entry "2",
selecting the disabled file and leaving with "esc", the menu is shown with
`err` set; "enter" is not the timer event, and it empties `err`. -/
theorem C3_counterexample :
    (run demoWidgets demoStart keysToMenuWithErr).err
      = some (GoError.New "/etc/shadow is not valid.") ∧
    (Msg.KeyMsg "enter" : Msg demoWidgets.Ext) ≠ Msg.clearErrorMsg ∧
    (Update demoWidgets (run demoWidgets demoStart keysToMenuWithErr) (Msg.KeyMsg "enter")).1.err
      = none := by
  refine ⟨by decide, by simp, by decide⟩

/-- C3 (amended): for a model with `err` set and an event other than the
error-clear timer event, `Update` returns an empty `err` exactly when the
state is not FileSelect, the event is "enter" and the highlighted item has
description "2"; for every other event `err` stays set. -/
theorem C3_err_cleared_iff (W : Widgets) (m : model W) (msg : Msg W.Ext)
    (herr : m.err ≠ none) (hmsg : msg ≠ Msg.clearErrorMsg) :
    (Update W m msg).1.err = none ↔
      (m.state ≠ fileSelectView ∧ msg = Msg.KeyMsg "enter" ∧
        ∃ i, W.listSelectedItem m.menu.list = some i ∧ i.desc = "2") := by
  have hmenu : ∀ msg1 : Msg W.Ext, (menuForward W msg1 m).1.err ≠ none := by
    intro msg1
    rw [(menuForward_fields W msg1 m).2.1]
    exact herr
  have hpick := fun msg1 : Msg W.Ext => pickerForward_err_ne_none W msg1 m herr
  by_cases hs : m.state = fileSelectView
  · -- the picker screen never empties `err`
    have hne : (Update W m msg).1.err ≠ none := by
      cases msg with
      | KeyMsg s =>
        by_cases hq : s = "ctrl+c" ∨ s = "q"
        · simpa [Update, hq] using herr
        · by_cases he : s = "esc"
          · simpa [Update, dispatch, updateFilePicker, hs, he] using herr
          · simpa [Update, dispatch, updateFilePicker, hs, hq, he] using hpick (Msg.KeyMsg s)
      | clearErrorMsg => exact absurd rfl hmsg
      | WindowSizeMsg w h =>
        simpa [Update, dispatch, updateFilePicker, hs] using hpick (Msg.WindowSizeMsg w h)
      | other e => simpa [Update, dispatch, updateFilePicker, hs] using hpick (Msg.other e)
    constructor
    · intro h
      exact absurd h hne
    · intro h
      exact absurd hs h.1
  · cases msg with
    | KeyMsg s =>
      by_cases hq : s = "ctrl+c" ∨ s = "q"
      · have hne : s ≠ "enter" := by
          rcases hq with h | h <;> rw [h] <;> decide
        constructor
        · intro h
          have : (Update W m (Msg.KeyMsg s)).1.err = m.err := by simp [Update, hq]
          rw [this] at h
          exact absurd h herr
        · intro h
          exact absurd (Msg.KeyMsg.inj h.2.1) hne
      · have h1 : s ≠ "ctrl+c" := fun h => hq (Or.inl h)
        have h2 : s ≠ "q" := fun h => hq (Or.inr h)
        have hu : Update W m (Msg.KeyMsg s) = updateMenu W (Msg.KeyMsg s) m := by
          rw [Update_key W m s h1 h2]
          simp [dispatch, hs]
        rw [hu]
        by_cases hen : s = "enter"
        · subst hen
          by_cases htwo : ∃ i, W.listSelectedItem m.menu.list = some i ∧ i.desc = "2"
          · obtain ⟨i, hi, hd⟩ := htwo
            rw [updateMenu_enter_two W m i hi hd]
            constructor
            · intro _
              exact ⟨hs, rfl, i, hi, hd⟩
            · intro _
              simp [menuForward]
          · have hall : ∀ i, W.listSelectedItem m.menu.list = some i → i.desc ≠ "2" :=
              fun i hi hd => htwo ⟨i, hi, hd⟩
            rw [updateMenu_enter_other W m hall]
            constructor
            · intro h
              exact absurd h (hmenu _)
            · intro h
              exact absurd h.2.2 htwo
        · have hf : updateMenu W (Msg.KeyMsg s) m = menuForward W (Msg.KeyMsg s) m := by
            simp [updateMenu, h1, hen]
          rw [hf]
          constructor
          · intro h
            exact absurd h (hmenu _)
          · intro h
            exact absurd (Msg.KeyMsg.inj h.2.1) hen
    | clearErrorMsg => exact absurd rfl hmsg
    | WindowSizeMsg w h =>
      have hne : (Update W m (Msg.WindowSizeMsg w h)).1.err ≠ none := by
        simp [Update, dispatch, updateMenu, hs, menuForward]
        exact herr
      constructor
      · intro h1
        exact absurd h1 hne
      · intro h1
        exact Msg.noConfusion h1.2.1
    | other e =>
      have hne : (Update W m (Msg.other e)).1.err ≠ none := by
        simp [Update, dispatch, updateMenu, hs, menuForward]
        exact herr
      constructor
      · intro h1
        exact absurd h1 hne
      · intro h1
        exact Msg.noConfusion h1.2.1

/-- C3 (amended) on the picker screen with a notice shown: "down" is not
the excluded "enter", so `err` stays set. -/
theorem C3_err_cleared_iff_witness :
    demoPickingWithErr.err ≠ none ∧
    ((Update demoWidgets demoPickingWithErr (Msg.KeyMsg "down")).1.err = none ↔
      (demoPickingWithErr.state ≠ fileSelectView ∧
        (Msg.KeyMsg "down" : Msg demoWidgets.Ext) = Msg.KeyMsg "enter" ∧
        ∃ i, demoWidgets.listSelectedItem demoPickingWithErr.menu.list = some i ∧ i.desc = "2")) :=
  ⟨by simp [demoPickingWithErr],
   C3_err_cleared_iff demoWidgets demoPickingWithErr (Msg.KeyMsg "down")
    (by simp [demoPickingWithErr]) (by simp)⟩

/-! ## C4: the timer event empties `err` -/

/-- C4: given that the picker reports file selections (valid or disabled)
only for key-press events, `Update` on `clearErrorMsg` returns a model with
empty `err`, in every view state and whatever `err` was. -/
theorem C4_clearError_clears (W : Widgets)
    (hW : ∀ (f : W.PickerModel) (msg : Msg W.Ext),
      ((W.DidSelectFile f msg).1 = true ∨ (W.DidSelectDisabledFile f msg).1 = true) →
        ∃ s, msg = Msg.KeyMsg s)
    (m : model W) :
    (Update W m Msg.clearErrorMsg).1.err = none := by
  by_cases hs : m.state = fileSelectView
  · have hd : (W.DidSelectDisabledFile
        (W.pickerUpdate m.fp.filepicker Msg.clearErrorMsg).1 Msg.clearErrorMsg).1 = false := by
      cases hb : (W.DidSelectDisabledFile
        (W.pickerUpdate m.fp.filepicker Msg.clearErrorMsg).1 Msg.clearErrorMsg).1 with
      | false => rfl
      | true =>
        obtain ⟨s, hk⟩ := hW _ _ (Or.inr hb)
        exact Msg.noConfusion hk
    have h := (pickerForward_err W Msg.clearErrorMsg { m with err := none }).2.2 hd
    simpa [Update, dispatch, updateFilePicker, hs] using h
  · simp [Update, dispatch, updateMenu, hs, menuForward]

/-- C4 over the demo kit, whose picker answers on "enter" only: the notice
shown on the picker screen is removed. -/
theorem C4_clearError_clears_witness :
    demoPickingWithErr.err = some (GoError.New "/etc/shadow is not valid.") ∧
    (Update demoWidgets demoPickingWithErr Msg.clearErrorMsg).1.err = none :=
  ⟨rfl, C4_clearError_clears demoWidgets (by
      intro f msg h
      cases msg with
      | KeyMsg s => exact ⟨s, rfl⟩
      | clearErrorMsg => simp [demoWidgets, DemoPicker.didSelectFile,
          DemoPicker.didSelectDisabledFile, DemoPicker.entered] at h
      | WindowSizeMsg w h1 => simp [demoWidgets, DemoPicker.didSelectFile,
          DemoPicker.didSelectDisabledFile, DemoPicker.entered] at h
      | other e => simp [demoWidgets, DemoPicker.didSelectFile,
          DemoPicker.didSelectDisabledFile, DemoPicker.entered] at h) demoPickingWithErr⟩

/-! ## C5, C6: the quit keys -/

/-- C5: in every view state "ctrl+c" returns `quitting = true` with the
`tea.Quit` command, and nothing else changes: state, option, selectedFile,
`err`, the list and the picker are those of the input model. -/
theorem C5_ctrl_c_quits (W : Widgets) (m : model W) :
    (Update W m (Msg.KeyMsg "ctrl+c")).1.quitting = true ∧
    (Update W m (Msg.KeyMsg "ctrl+c")).2 = Cmd.Quit ∧
    (Update W m (Msg.KeyMsg "ctrl+c")).1.state = m.state ∧
    (Update W m (Msg.KeyMsg "ctrl+c")).1.menu.option = m.menu.option ∧
    (Update W m (Msg.KeyMsg "ctrl+c")).1.fp.selectedFile = m.fp.selectedFile ∧
    (Update W m (Msg.KeyMsg "ctrl+c")).1.err = m.err ∧
    (Update W m (Msg.KeyMsg "ctrl+c")).1.menu.list = m.menu.list ∧
    (Update W m (Msg.KeyMsg "ctrl+c")).1.fp.filepicker = m.fp.filepicker ∧
    Update W m (Msg.KeyMsg "ctrl+c") = ({ m with quitting := true }, Cmd.Quit) := by
  simp [Update]

/-- C6: in every view state, Menu included, "q" returns `quitting = true`
with the `tea.Quit` command; neither widget is updated with the key, so the
list and the picker of the result are those of the input and the result
does not depend on the widgets at all. -/
theorem C6_q_quits (W : Widgets) (m : model W) :
    (Update W m (Msg.KeyMsg "q")).1.quitting = true ∧
    (Update W m (Msg.KeyMsg "q")).2 = Cmd.Quit ∧
    (Update W m (Msg.KeyMsg "q")).1.menu.list = m.menu.list ∧
    (Update W m (Msg.KeyMsg "q")).1.fp.filepicker = m.fp.filepicker ∧
    Update W m (Msg.KeyMsg "q") = ({ m with quitting := true }, Cmd.Quit) := by
  simp [Update]

/-! ## C7: "esc" on the picker screen -/

/-- C7: in FileSelect state "esc" returns state Menu with option,
selectedFile, `err`, quitting, the list and the picker unchanged, and the
`nil` command; the picker is not updated with the key. -/
theorem C7_esc_to_menu (W : Widgets) (m : model W) (hs : m.state = fileSelectView) :
    (Update W m (Msg.KeyMsg "esc")).1.state = menuView ∧
    (Update W m (Msg.KeyMsg "esc")).1.menu.option = m.menu.option ∧
    (Update W m (Msg.KeyMsg "esc")).1.fp.selectedFile = m.fp.selectedFile ∧
    (Update W m (Msg.KeyMsg "esc")).1.err = m.err ∧
    (Update W m (Msg.KeyMsg "esc")).1.quitting = m.quitting ∧
    (Update W m (Msg.KeyMsg "esc")).1.menu.list = m.menu.list ∧
    (Update W m (Msg.KeyMsg "esc")).1.fp.filepicker = m.fp.filepicker ∧
    (Update W m (Msg.KeyMsg "esc")).2 = Cmd.nil := by
  have hu : Update W m (Msg.KeyMsg "esc") = ({ m with state := menuView }, Cmd.nil) := by
    rw [Update_key W m "esc" (by decide) (by decide)]
    simp [dispatch, updateFilePicker, hs]
  rw [hu]
  simp

/-- C7 on the picker screen with a notice shown. -/
theorem C7_esc_to_menu_witness :
    (Update demoWidgets demoPickingWithErr (Msg.KeyMsg "esc")).1.state = menuView ∧
    (Update demoWidgets demoPickingWithErr (Msg.KeyMsg "esc")).1.menu.option = 2 ∧
    (Update demoWidgets demoPickingWithErr (Msg.KeyMsg "esc")).1.fp.selectedFile = "" ∧
    (Update demoWidgets demoPickingWithErr (Msg.KeyMsg "esc")).1.err
      = some (GoError.New "/etc/shadow is not valid.") ∧
    (Update demoWidgets demoPickingWithErr (Msg.KeyMsg "esc")).1.quitting = false ∧
    (Update demoWidgets demoPickingWithErr (Msg.KeyMsg "esc")).1.menu.list = demoListOnTwo ∧
    (Update demoWidgets demoPickingWithErr (Msg.KeyMsg "esc")).1.fp.filepicker = demoPicker ∧
    (Update demoWidgets demoPickingWithErr (Msg.KeyMsg "esc")).2 = Cmd.nil :=
  C7_esc_to_menu demoWidgets demoPickingWithErr rfl

/-! ## C8: a valid file is recorded -/

/-- C8: in FileSelect state, for an event that is neither a quit key nor
"esc", if the updated picker reports a valid file with path `p` and no
disabled file, the returned model has `selectedFile = p` and state
FileSelect, its `err` is empty for the error-clear timer event and the
input's `err` for every other event, and the command is the picker's own. -/
theorem C8_valid_selection (W : Widgets) (m : model W) (msg : Msg W.Ext) (p : String)
    (hs : m.state = fileSelectView)
    (hc : msg ≠ Msg.KeyMsg "ctrl+c") (hq : msg ≠ Msg.KeyMsg "q") (he : msg ≠ Msg.KeyMsg "esc")
    (hv : W.DidSelectFile (W.pickerUpdate m.fp.filepicker msg).1 msg = (true, p))
    (hd : (W.DidSelectDisabledFile (W.pickerUpdate m.fp.filepicker msg).1 msg).1 = false) :
    (Update W m msg).1.fp.selectedFile = p ∧
    (Update W m msg).1.state = fileSelectView ∧
    (msg = Msg.clearErrorMsg → (Update W m msg).1.err = none) ∧
    (msg ≠ Msg.clearErrorMsg → (Update W m msg).1.err = m.err) ∧
    (Update W m msg).2 = Cmd.ofWidget (W.pickerUpdate m.fp.filepicker msg).2 := by
  rw [Update_fileSelect_forward W m msg hs hc hq he]
  obtain ⟨hfp, hst, -, -⟩ := afterGlobal_picker W m msg
  refine ⟨?_, ?_, ?_, ?_, ?_⟩
  · simp [pickerForward, hfp, hv, hd]
  · simp [pickerForward, hfp, hv, hd, hst, hs]
  · intro hm
    subst hm
    simp [pickerForward, hfp, hv, hd, afterGlobal]
  · intro hm
    have ha : afterGlobal W m msg = m := by
      cases msg with
      | clearErrorMsg => exact absurd rfl hm
      | KeyMsg s => rfl
      | WindowSizeMsg w h => rfl
      | other e => rfl
    simp [pickerForward, ha, hv, hd]
  · simp [pickerForward, hfp, hv, hd]

/-- C8 on the picker screen with the cursor on the allowed file: "enter"
records its path and returns the picker's command. -/
theorem C8_valid_selection_witness :
    (Update demoWidgets demoPickingAllowed (Msg.KeyMsg "enter")).1.fp.selectedFile
      = "/home/u/notes.txt" ∧
    (Update demoWidgets demoPickingAllowed (Msg.KeyMsg "enter")).1.state = fileSelectView ∧
    ((Msg.KeyMsg "enter" : Msg demoWidgets.Ext) = Msg.clearErrorMsg →
      (Update demoWidgets demoPickingAllowed (Msg.KeyMsg "enter")).1.err = none) ∧
    ((Msg.KeyMsg "enter" : Msg demoWidgets.Ext) ≠ Msg.clearErrorMsg →
      (Update demoWidgets demoPickingAllowed (Msg.KeyMsg "enter")).1.err
        = demoPickingAllowed.err) ∧
    (Update demoWidgets demoPickingAllowed (Msg.KeyMsg "enter")).2
      = Cmd.ofWidget (demoWidgets.pickerUpdate demoPickingAllowed.fp.filepicker
          (Msg.KeyMsg "enter")).2 :=
  C8_valid_selection demoWidgets demoPickingAllowed (Msg.KeyMsg "enter") "/home/u/notes.txt"
    rfl (by simp) (by simp) (by simp) rfl rfl

/-! ## C9: the commands of the picker screen -/

/-- C9: in FileSelect state, when the picker is updated with the event (the
event is neither a quit key nor "esc") and the updated picker reports a
disabled file, the command is `tea.Batch` of exactly the picker's own
command and a tick of 2 seconds that delivers `clearErrorMsg`; when no
disabled file is reported (the updated picker answers no, or `Update`
returns on a quit key or "esc" without asking it) the command holds no
tick. -/
theorem C9_timer_iff_disabled (W : Widgets) (m : model W) (msg : Msg W.Ext)
    (hs : m.state = fileSelectView) :
    (msg ≠ Msg.KeyMsg "ctrl+c" → msg ≠ Msg.KeyMsg "q" → msg ≠ Msg.KeyMsg "esc" →
      (W.DidSelectDisabledFile (W.pickerUpdate m.fp.filepicker msg).1 msg).1 = true →
      (Update W m msg).2 =
        Cmd.Batch [Cmd.ofWidget (W.pickerUpdate m.fp.filepicker msg).2,
                   Cmd.Tick (2 * Second) Msg.clearErrorMsg]) ∧
    ((W.DidSelectDisabledFile (W.pickerUpdate m.fp.filepicker msg).1 msg).1 = false →
      (Update W m msg).2.hasTick = false) ∧
    ((msg = Msg.KeyMsg "ctrl+c" ∨ msg = Msg.KeyMsg "q" ∨ msg = Msg.KeyMsg "esc") →
      (Update W m msg).2.hasTick = false) := by
  have hquit : (msg = Msg.KeyMsg "ctrl+c" ∨ msg = Msg.KeyMsg "q" ∨ msg = Msg.KeyMsg "esc") →
      (Update W m msg).2.hasTick = false := by
    intro h
    rcases h with h | h | h
    · subst h
      simp [Update, Cmd.hasTick]
    · subst h
      simp [Update, Cmd.hasTick]
    · subst h
      rw [Update_key W m "esc" (by decide) (by decide)]
      simp [dispatch, updateFilePicker, hs, Cmd.hasTick]
  refine ⟨?_, ?_, hquit⟩
  · intro hc hq he hd
    rw [Update_fileSelect_forward W m msg hs hc hq he]
    have hfp := (afterGlobal_picker W m msg).1
    simp [pickerForward, hfp, hd, clearErrorAfter]
  · intro hd
    by_cases hk : msg = Msg.KeyMsg "ctrl+c" ∨ msg = Msg.KeyMsg "q" ∨ msg = Msg.KeyMsg "esc"
    · exact hquit hk
    · have hc : msg ≠ Msg.KeyMsg "ctrl+c" := fun h => hk (Or.inl h)
      have hq : msg ≠ Msg.KeyMsg "q" := fun h => hk (Or.inr (Or.inl h))
      have he : msg ≠ Msg.KeyMsg "esc" := fun h => hk (Or.inr (Or.inr h))
      rw [Update_fileSelect_forward W m msg hs hc hq he]
      have hfp := (afterGlobal_picker W m msg).1
      simp [pickerForward, hfp, hd, hasTick_ofWidget]

/-- C9 on the picker screen with the cursor on the disabled file: "enter"
returns the batch of the picker's `some 1` command and the 2 second tick. -/
theorem C9_timer_iff_disabled_witness :
    (Update demoWidgets demoPicking (Msg.KeyMsg "enter")).2 =
      Cmd.Batch [Cmd.widget (1 : Nat), Cmd.Tick 2000000000 Msg.clearErrorMsg] :=
  (C9_timer_iff_disabled demoWidgets demoPicking (Msg.KeyMsg "enter") rfl).1
    (by simp) (by simp) (by simp) rfl

/-! ## C10: the Log state is never entered -/

/-- C10: after every finite sequence of events fed through `Update` from
the model of `main`, the state is Menu or FileSelect and not Log; from such
a model a step changes the state only from Menu to FileSelect on "enter" or
from FileSelect to Menu on "esc". -/
theorem C10_log_unreachable (W : Widgets) (l : W.ListModel) (fp : W.PickerModel)
    (msgs : List (Msg W.Ext)) :
    ((run W (initialModel W l fp) msgs).state = menuView ∨
      (run W (initialModel W l fp) msgs).state = fileSelectView) ∧
    (run W (initialModel W l fp) msgs).state ≠ logView ∧
    ∀ msg : Msg W.Ext,
      (Update W (run W (initialModel W l fp) msgs) msg).1.state
          ≠ (run W (initialModel W l fp) msgs).state →
      ((run W (initialModel W l fp) msgs).state = menuView ∧ msg = Msg.KeyMsg "enter" ∧
        (Update W (run W (initialModel W l fp) msgs) msg).1.state = fileSelectView) ∨
      ((run W (initialModel W l fp) msgs).state = fileSelectView ∧ msg = Msg.KeyMsg "esc" ∧
        (Update W (run W (initialModel W l fp) msgs) msg).1.state = menuView) := by
  have hinv := run_state W l fp msgs
  refine ⟨hinv, ?_, ?_⟩
  · rcases hinv with h | h <;> rw [h] <;> decide
  · intro msg hne
    rcases Update_state W (run W (initialModel W l fp) msgs) msg with h | h | h
    · exact absurd h hne
    · left
      rcases hinv with h0 | h0
      · exact ⟨h0, h.2.1, h.2.2⟩
      · exact absurd h0 h.1
    · right
      exact h

/-! ## C11: nothing is drawn while quitting -/

/-- C11: for every model with `quitting = true`, `View` returns the empty
string, whatever the view state, `err`, `selectedFile` and the widgets
hold. -/
theorem C11_view_quitting (W : Widgets) (m : model W) (hq : m.quitting = true) :
    View W m = "" := by
  simp [View, hq]

/-- C11 on the picker screen with a notice and a selection held. -/
theorem C11_view_quitting_witness : View demoWidgets demoQuitting = "" :=
  C11_view_quitting demoWidgets demoQuitting rfl

/-! ## C12: the picker screen -/

/-- C12: for a non-quitting model in FileSelect state, `View` is
"\n  " ++ header ++ "\n\n" ++ the picker's view ++ "\n", where the header is
the disabled-file-styled text of `err` when `err` is set (whatever
`selectedFile` is), "Pick a file:" when `err` is empty and `selectedFile`
is empty, and "Selected file: " followed by the selection-styled
`selectedFile` otherwise. -/
theorem C12_view_filePicker (W : Widgets) (m : model W)
    (hq : m.quitting = false) (hs : m.state = fileSelectView) :
    (∀ e, m.err = some e →
      View W m = "\n  " ++ W.renderDisabledFile m.fp.filepicker (e.Error W.Quote) ++ "\n\n"
        ++ W.pickerView m.fp.filepicker ++ "\n") ∧
    (m.err = none → m.fp.selectedFile = "" →
      View W m = "\n  " ++ "Pick a file:" ++ "\n\n" ++ W.pickerView m.fp.filepicker ++ "\n") ∧
    (m.err = none → m.fp.selectedFile ≠ "" →
      View W m = "\n  " ++ ("Selected file: " ++ W.renderSelected m.fp.filepicker m.fp.selectedFile)
        ++ "\n\n" ++ W.pickerView m.fp.filepicker ++ "\n") := by
  have hv : View W m = viewFilePicker W m := by
    simp [View, hq, hs]
  refine ⟨?_, ?_, ?_⟩
  · intro e he
    rw [hv]
    simp [viewFilePicker, hq, he, String.append_assoc]
  · intro he hsel
    rw [hv]
    simp only [viewFilePicker, hq, he, hsel, String.append_assoc]
    rfl
  · intro he hsel
    rw [hv]
    simp [viewFilePicker, hq, he, hsel, String.append_assoc]

/-- C12 where a notice and a selected file are held at once: the notice is
the header. -/
theorem C12_view_filePicker_witness :
    demoErrAndSelected.fp.selectedFile ≠ "" ∧
    View demoWidgets demoErrAndSelected =
      "\n  " ++ "/etc/shadow is not valid." ++ "\n\n"
        ++ "/home/u/notes.txt\n/etc/shadow" ++ "\n" :=
  ⟨by decide,
   (C12_view_filePicker demoWidgets demoErrAndSelected rfl rfl).1
     (GoError.New "/etc/shadow is not valid.") rfl⟩

/-! ## C13: what `err` can hold -/

/-- Forwarding to the picker keeps `err` or stores the notice for the path
the updated picker reports as disabled. -/
theorem pickerForward_err_cases (W : Widgets) (msg : Msg W.Ext) (m : model W) :
    (pickerForward W msg m).1.err = m.err ∨
    ∃ p, W.DidSelectDisabledFile (W.pickerUpdate m.fp.filepicker msg).1 msg = (true, p) ∧
      (pickerForward W msg m).1.err = some (GoError.New (p ++ " is not valid.")) := by
  cases hd : (W.DidSelectDisabledFile (W.pickerUpdate m.fp.filepicker msg).1 msg).1 with
  | false => exact Or.inl ((pickerForward_err W msg m).2.2 hd)
  | true =>
    right
    refine ⟨(W.DidSelectDisabledFile (W.pickerUpdate m.fp.filepicker msg).1 msg).2, ?_, ?_⟩
    · exact Prod.ext hd rfl
    · exact (pickerForward_err W msg m).2.1 hd

/-- One step of `Update` keeps `err`, empties it, or stores the notice for
a path the updated picker reports as disabled. -/
theorem Update_err_cases (W : Widgets) (m : model W) (msg : Msg W.Ext) :
    (Update W m msg).1.err = m.err ∨ (Update W m msg).1.err = none ∨
    ∃ p, W.DidSelectDisabledFile (W.pickerUpdate m.fp.filepicker msg).1 msg = (true, p) ∧
      (Update W m msg).1.err = some (GoError.New (p ++ " is not valid.")) := by
  by_cases hs : m.state = fileSelectView
  · cases msg with
    | KeyMsg s =>
      by_cases hq : s = "ctrl+c" ∨ s = "q"
      · left
        simp [Update, hq]
      · by_cases he : s = "esc"
        · left
          simp [Update, dispatch, updateFilePicker, hs, he]
        · have hu : Update W m (Msg.KeyMsg s) = pickerForward W (Msg.KeyMsg s) m := by
            simp [Update, dispatch, updateFilePicker, hs, hq, he]
          rw [hu]
          rcases pickerForward_err_cases W (Msg.KeyMsg s) m with h | h
          · exact Or.inl h
          · exact Or.inr (Or.inr h)
    | clearErrorMsg =>
      have hu : Update W m Msg.clearErrorMsg
          = pickerForward W Msg.clearErrorMsg { m with err := none } := by
        simp [Update, dispatch, updateFilePicker, hs]
      rw [hu]
      rcases pickerForward_err_cases W Msg.clearErrorMsg { m with err := none } with h | h
      · exact Or.inr (Or.inl h)
      · exact Or.inr (Or.inr h)
    | WindowSizeMsg w h =>
      have hu : Update W m (Msg.WindowSizeMsg w h)
          = pickerForward W (Msg.WindowSizeMsg w h) m := by
        simp [Update, dispatch, updateFilePicker, hs]
      rw [hu]
      rcases pickerForward_err_cases W (Msg.WindowSizeMsg w h) m with h1 | h1
      · exact Or.inl h1
      · exact Or.inr (Or.inr h1)
    | other e =>
      have hu : Update W m (Msg.other e) = pickerForward W (Msg.other e) m := by
        simp [Update, dispatch, updateFilePicker, hs]
      rw [hu]
      rcases pickerForward_err_cases W (Msg.other e) m with h1 | h1
      · exact Or.inl h1
      · exact Or.inr (Or.inr h1)
  · cases msg with
    | KeyMsg s =>
      by_cases hq : s = "ctrl+c" ∨ s = "q"
      · left
        simp [Update, hq]
      · have h1 : s ≠ "ctrl+c" := fun h => hq (Or.inl h)
        have h2 : s ≠ "q" := fun h => hq (Or.inr h)
        have hu : Update W m (Msg.KeyMsg s) = updateMenu W (Msg.KeyMsg s) m := by
          rw [Update_key W m s h1 h2]
          simp [dispatch, hs]
        rw [hu]
        by_cases hen : s = "enter"
        · subst hen
          by_cases htwo : ∃ i, W.listSelectedItem m.menu.list = some i ∧ i.desc = "2"
          · obtain ⟨i, hi, hd⟩ := htwo
            right; left
            rw [updateMenu_enter_two W m i hi hd]
            simp [menuForward]
          · left
            rw [updateMenu_enter_other W m (fun i hi hd => htwo ⟨i, hi, hd⟩)]
            exact (menuForward_fields W _ m).2.1
        · left
          simp [updateMenu, h1, hen, menuForward]
    | clearErrorMsg =>
      right; left
      simp [Update, dispatch, updateMenu, hs, menuForward]
    | WindowSizeMsg w h =>
      left
      simp [Update, dispatch, updateMenu, hs, menuForward]
    | other e =>
      left
      simp [Update, dispatch, updateMenu, hs, menuForward]

/-- C13: in every model reached from the model of `main` through `Update`,
`err` is empty or the error with text `p ++ " is not valid."` for a path
`p` that the picker reported as a disabled file; in particular `err` never
holds a `strconv` parse error, so the parse on "enter" stores none. -/
theorem C13_err_shape (W : Widgets) (l : W.ListModel) (fp : W.PickerModel)
    (msgs : List (Msg W.Ext)) :
    ((run W (initialModel W l fp) msgs).err = none ∨
      ∃ (p : String) (f : W.PickerModel) (msg : Msg W.Ext),
        W.DidSelectDisabledFile f msg = (true, p) ∧
        (run W (initialModel W l fp) msgs).err = some (GoError.New (p ++ " is not valid."))) ∧
    (∀ fn num kind,
      (run W (initialModel W l fp) msgs).err ≠ some (GoError.NumError fn num kind)) ∧
    (∀ fn num kind,
      (Update W (run W (initialModel W l fp) msgs) (Msg.KeyMsg "enter")).1.err
        ≠ some (GoError.NumError fn num kind)) := by
  have hinv : ∀ ms : List (Msg W.Ext),
      (run W (initialModel W l fp) ms).err = none ∨
      ∃ (p : String) (f : W.PickerModel) (msg : Msg W.Ext),
        W.DidSelectDisabledFile f msg = (true, p) ∧
        (run W (initialModel W l fp) ms).err = some (GoError.New (p ++ " is not valid.")) := by
    intro ms
    induction ms using List.reverseRecOn with
    | nil => left; rfl
    | append_singleton ms msg ih =>
      rw [run_snoc]
      rcases Update_err_cases W (run W (initialModel W l fp) ms) msg with h | h | h
      · rw [h]; exact ih
      · exact Or.inl h
      · obtain ⟨p, hp, he⟩ := h
        exact Or.inr ⟨p, _, msg, hp, he⟩
  have hnum : ∀ ms : List (Msg W.Ext), ∀ fn num kind,
      (run W (initialModel W l fp) ms).err ≠ some (GoError.NumError fn num kind) := by
    intro ms fn num kind h
    rcases hinv ms with h0 | ⟨p, f, msg, -, h0⟩
    · rw [h0] at h
      exact Option.noConfusion h
    · rw [h0] at h
      exact GoError.noConfusion (Option.some.inj h)
  refine ⟨hinv msgs, hnum msgs, ?_⟩
  intro fn num kind
  have h := hnum (msgs ++ [Msg.KeyMsg "enter"]) fn num kind
  rw [run_snoc] at h
  exact h

/-! ## C15, C18: what the menu hands to the list -/

/-- Outside `fileSelectView` a message that is no quit key goes to
`updateMenu`, after the global handling of `clearErrorMsg`. -/
theorem Update_menu_side (W : Widgets) (m : model W) (msg : Msg W.Ext)
    (hs : m.state ≠ fileSelectView)
    (hc : msg ≠ Msg.KeyMsg "ctrl+c") (hq : msg ≠ Msg.KeyMsg "q") :
    Update W m msg = updateMenu W msg (afterGlobal W m msg) := by
  cases msg with
  | KeyMsg s =>
    have h1 : s ≠ "ctrl+c" := fun h => hc (by rw [h])
    have h2 : s ≠ "q" := fun h => hq (by rw [h])
    rw [Update_key W m s h1 h2]
    simp [dispatch, hs, afterGlobal]
  | clearErrorMsg => simp [Update, dispatch, hs, afterGlobal]
  | WindowSizeMsg w h => simp [Update, dispatch, hs, afterGlobal]
  | other e => simp [Update, dispatch, hs, afterGlobal]

/-- C15: in Menu state, for an event that is no quit key, not "enter" and
no terminal resize, the returned list is the list's own update applied to
the event as it came, the returned command is that update's command, and
state, option, selectedFile and quitting are unchanged. -/
theorem C15_menu_forwards (W : Widgets) (m : model W) (msg : Msg W.Ext)
    (hs : m.state = menuView)
    (hc : msg ≠ Msg.KeyMsg "ctrl+c") (hq : msg ≠ Msg.KeyMsg "q")
    (he : msg ≠ Msg.KeyMsg "enter") (hw : ∀ w h, msg ≠ Msg.WindowSizeMsg w h) :
    (Update W m msg).1.menu.list = (W.listUpdate m.menu.list msg).1 ∧
    (Update W m msg).2 = Cmd.ofWidget (W.listUpdate m.menu.list msg).2 ∧
    (Update W m msg).1.state = m.state ∧
    (Update W m msg).1.menu.option = m.menu.option ∧
    (Update W m msg).1.fp.selectedFile = m.fp.selectedFile ∧
    (Update W m msg).1.quitting = m.quitting := by
  have hs1 : m.state ≠ fileSelectView := by rw [hs]; decide
  rw [Update_menu_side W m msg hs1 hc hq]
  cases msg with
  | KeyMsg s =>
    have h1 : s ≠ "ctrl+c" := fun h => hc (by rw [h])
    have h3 : s ≠ "enter" := fun h => he (by rw [h])
    simp [updateMenu, h1, h3, menuForward, afterGlobal]
  | clearErrorMsg => simp [updateMenu, menuForward, afterGlobal]
  | WindowSizeMsg w h => exact absurd rfl (hw w h)
  | other e => simp [updateMenu, menuForward, afterGlobal]

/-- C15 at the menu of `main`: "down" moves the cursor of the list and
nothing else. -/
theorem C15_menu_forwards_witness :
    (Update demoWidgets demoStart (Msg.KeyMsg "down")).1.menu.list = demoListOnTwo ∧
    (Update demoWidgets demoStart (Msg.KeyMsg "down")).2 = Cmd.nil ∧
    (Update demoWidgets demoStart (Msg.KeyMsg "down")).1.state = menuView ∧
    (Update demoWidgets demoStart (Msg.KeyMsg "down")).1.menu.option = 0 ∧
    (Update demoWidgets demoStart (Msg.KeyMsg "down")).1.fp.selectedFile = "" ∧
    (Update demoWidgets demoStart (Msg.KeyMsg "down")).1.quitting = false :=
  C15_menu_forwards demoWidgets demoStart (Msg.KeyMsg "down") rfl
    (by simp) (by simp) (by simp) (by simp)

/-- A Go `int` result inside the 64-bit range is not wrapped. -/
theorem wrapInt_of_range (x : Int) (hlo : -9223372036854775808 ≤ x)
    (hhi : x ≤ 9223372036854775807) : wrapInt x = x := by
  unfold wrapInt
  norm_num
  omega

/-- C18 (as stated) fails: at the menu of `main`, on a resize whose width is
the least 64-bit `int` (frame 4 by 2), the returned list is not the list
update applied after a resize to width minus 4: Go's subtraction wraps to
9223372036854775804. -/
theorem C18_counterexample :
    demoStart.state = menuView ∧
    ((Update demoWidgets demoStart
        (Msg.WindowSizeMsg (-9223372036854775808) 24)).1.menu.list : DemoList)
      ≠ (demoWidgets.listUpdate
          (demoWidgets.listSetSize demoStart.menu.list
            (-9223372036854775808 - demoWidgets.docStyleFrameSize.1)
            (24 - demoWidgets.docStyleFrameSize.2))
          (Msg.WindowSizeMsg (-9223372036854775808) 24)).1 ∧
    ((Update demoWidgets demoStart
        (Msg.WindowSizeMsg (-9223372036854775808) 24)).1.menu.list : DemoList)
      = { items := mainItems, index := 0, width := 9223372036854775804, height := 22 } := by
  refine ⟨rfl, ?_, rfl⟩
  intro h
  have hw := congrArg DemoList.width h
  exact absurd hw (by decide)

/-- C18 (amended): in Menu state, for every event other than a quit key, the
returned list is the list's own update applied to the event and the
returned command is that update's command; for a terminal resize the update
is applied to the list already resized to width minus the horizontal frame
and height minus the vertical frame as Go's 64-bit `int` computes them
(wrapped around modulo 2^64), which are the exact differences whenever
these lie from -2^63 to 2^63 - 1; on the "enter" that leads to FileSelect
the key is forwarded all the same. -/
theorem C18_menu_always_forwards (W : Widgets) (m : model W) (msg : Msg W.Ext)
    (hs : m.state = menuView)
    (hc : msg ≠ Msg.KeyMsg "ctrl+c") (hq : msg ≠ Msg.KeyMsg "q") :
    (∀ w h, msg = Msg.WindowSizeMsg w h →
      (Update W m msg).1.menu.list =
        (W.listUpdate (W.listSetSize m.menu.list (wrapInt (w - W.docStyleFrameSize.1))
          (wrapInt (h - W.docStyleFrameSize.2))) msg).1 ∧
      (Update W m msg).2 =
        Cmd.ofWidget (W.listUpdate (W.listSetSize m.menu.list
          (wrapInt (w - W.docStyleFrameSize.1))
          (wrapInt (h - W.docStyleFrameSize.2))) msg).2) ∧
    (∀ w h, msg = Msg.WindowSizeMsg w h →
      -9223372036854775808 ≤ w - W.docStyleFrameSize.1 →
      w - W.docStyleFrameSize.1 ≤ 9223372036854775807 →
      -9223372036854775808 ≤ h - W.docStyleFrameSize.2 →
      h - W.docStyleFrameSize.2 ≤ 9223372036854775807 →
      (Update W m msg).1.menu.list =
        (W.listUpdate (W.listSetSize m.menu.list (w - W.docStyleFrameSize.1)
          (h - W.docStyleFrameSize.2)) msg).1 ∧
      (Update W m msg).2 =
        Cmd.ofWidget (W.listUpdate (W.listSetSize m.menu.list (w - W.docStyleFrameSize.1)
          (h - W.docStyleFrameSize.2)) msg).2) ∧
    ((∀ w h, msg ≠ Msg.WindowSizeMsg w h) →
      (Update W m msg).1.menu.list = (W.listUpdate m.menu.list msg).1 ∧
      (Update W m msg).2 = Cmd.ofWidget (W.listUpdate m.menu.list msg).2) ∧
    (msg = Msg.KeyMsg "enter" →
      ∀ i, W.listSelectedItem m.menu.list = some i → i.desc = "2" →
        (Update W m msg).1.state = fileSelectView ∧
        (Update W m msg).1.menu.list = (W.listUpdate m.menu.list msg).1 ∧
        (Update W m msg).2 = Cmd.ofWidget (W.listUpdate m.menu.list msg).2) := by
  have hs1 : m.state ≠ fileSelectView := by rw [hs]; decide
  have hkey : ∀ s, msg = Msg.KeyMsg s →
      (Update W m msg).1.menu.list = (W.listUpdate m.menu.list msg).1 ∧
      (Update W m msg).2 = Cmd.ofWidget (W.listUpdate m.menu.list msg).2 := by
    intro s hm
    subst hm
    have h1 : s ≠ "ctrl+c" := fun h => hc (by rw [h])
    rw [Update_menu_side W m (Msg.KeyMsg s) hs1 hc hq]
    have ha : afterGlobal W m (Msg.KeyMsg s) = m := rfl
    rw [ha]
    by_cases hen : s = "enter"
    · subst hen
      by_cases htwo : ∃ i, W.listSelectedItem m.menu.list = some i ∧ i.desc = "2"
      · obtain ⟨i, hi, hd⟩ := htwo
        rw [updateMenu_enter_two W m i hi hd]
        simp [menuForward]
      · rw [updateMenu_enter_other W m (fun i hi hd => htwo ⟨i, hi, hd⟩)]
        simp [menuForward]
    · simp [updateMenu, h1, hen, menuForward]
  have hsize : ∀ w h, msg = Msg.WindowSizeMsg w h →
      (Update W m msg).1.menu.list =
        (W.listUpdate (W.listSetSize m.menu.list (wrapInt (w - W.docStyleFrameSize.1))
          (wrapInt (h - W.docStyleFrameSize.2))) msg).1 ∧
      (Update W m msg).2 =
        Cmd.ofWidget (W.listUpdate (W.listSetSize m.menu.list
          (wrapInt (w - W.docStyleFrameSize.1))
          (wrapInt (h - W.docStyleFrameSize.2))) msg).2 := by
    intro w h hm
    subst hm
    rw [Update_menu_side W m (Msg.WindowSizeMsg w h) hs1 hc hq]
    simp [updateMenu, menuForward, afterGlobal]
  refine ⟨hsize, ?_, ?_, ?_⟩
  · intro w h hm hw1 hw2 hh1 hh2
    have h1 := hsize w h hm
    rw [wrapInt_of_range _ hw1 hw2, wrapInt_of_range _ hh1 hh2] at h1
    exact h1
  · intro hw
    cases msg with
    | KeyMsg s => exact hkey s rfl
    | clearErrorMsg =>
      rw [Update_menu_side W m Msg.clearErrorMsg hs1 hc hq]
      simp [updateMenu, menuForward, afterGlobal]
    | WindowSizeMsg w h => exact absurd rfl (hw w h)
    | other e =>
      rw [Update_menu_side W m (Msg.other e) hs1 hc hq]
      simp [updateMenu, menuForward, afterGlobal]
  · intro hm i hi hd
    subst hm
    rw [Update_menu_side W m (Msg.KeyMsg "enter") hs1 hc hq]
    have ha : afterGlobal W m (Msg.KeyMsg "enter") = m := rfl
    rw [ha, updateMenu_enter_two W m i hi hd]
    simp [menuForward]

/-- C18 (amended) at the menu of `main` on a resize to 80 by 24 with the
frame of 4 by 2: the list is resized to 76 by 22 and then updated. -/
theorem C18_menu_always_forwards_witness :
    (Update demoWidgets demoStart (Msg.WindowSizeMsg 80 24)).1.menu.list
      = { items := mainItems, index := 0, width := 76, height := 22 } ∧
    (Update demoWidgets demoStart (Msg.WindowSizeMsg 80 24)).2 = Cmd.nil :=
  (C18_menu_always_forwards demoWidgets demoStart (Msg.WindowSizeMsg 80 24) rfl
    (by simp) (by simp)).2.1 80 24 rfl (by decide) (by decide) (by decide) (by decide)

/-! ## C17: a state outside the two screens -/

/-- `updateMenu` never reads `m.state`: on two models that differ in the
state only it returns the same command and the same fields, and either
both results keep their state or both are in `fileSelectView`. -/
theorem updateMenu_state (W : Widgets) (msg : Msg W.Ext) (m : model W) (s : sessionState) :
    (updateMenu W msg { m with state := s }).2 = (updateMenu W msg m).2 ∧
    (updateMenu W msg { m with state := s }).1.menu = (updateMenu W msg m).1.menu ∧
    (updateMenu W msg { m with state := s }).1.fp = (updateMenu W msg m).1.fp ∧
    (updateMenu W msg { m with state := s }).1.err = (updateMenu W msg m).1.err ∧
    (updateMenu W msg { m with state := s }).1.quitting = (updateMenu W msg m).1.quitting ∧
    (((updateMenu W msg { m with state := s }).1.state = s ∧
        (updateMenu W msg m).1.state = m.state) ∨
      ((updateMenu W msg { m with state := s }).1.state = fileSelectView ∧
        (updateMenu W msg m).1.state = fileSelectView)) := by
  cases msg with
  | KeyMsg k =>
    by_cases hc : k = "ctrl+c"
    · simp [updateMenu, hc]
    · by_cases hen : k = "enter"
      · subst hen
        by_cases htwo : ∃ i, W.listSelectedItem m.menu.list = some i ∧ i.desc = "2"
        · obtain ⟨i, hi, hd⟩ := htwo
          rw [updateMenu_enter_two W m i hi hd,
            updateMenu_enter_two W { m with state := s } i hi hd]
          simp [menuForward]
        · have hall : ∀ i, W.listSelectedItem m.menu.list = some i → i.desc ≠ "2" :=
            fun i hi hd => htwo ⟨i, hi, hd⟩
          rw [updateMenu_enter_other W m hall,
            updateMenu_enter_other W { m with state := s } hall]
          simp [menuForward]
      · simp [updateMenu, hc, hen, menuForward]
  | clearErrorMsg => simp [updateMenu, menuForward]
  | WindowSizeMsg w h => simp [updateMenu, menuForward]
  | other e => simp [updateMenu, menuForward]

/-- C17: for a model whose state is neither Menu nor FileSelect (Log, or
any other value), `Update` handles every event as it does for the same
model in Menu state: the same command, the same menu and picker
sub-models, the same `err` and `quitting`, and the state is kept where the
Menu model stays in Menu and becomes FileSelect where the Menu model does,
as on "enter" on the item with description "2"; `View` of that model, when
it is not quitting, is the fixed text "oopsie". -/
theorem C17_state_outside_screens (W : Widgets) (m : model W) (msg : Msg W.Ext)
    (h0 : m.state ≠ menuView) (h1 : m.state ≠ fileSelectView) :
    (Update W m msg).2 = (Update W { m with state := menuView } msg).2 ∧
    (Update W m msg).1.menu = (Update W { m with state := menuView } msg).1.menu ∧
    (Update W m msg).1.fp = (Update W { m with state := menuView } msg).1.fp ∧
    (Update W m msg).1.err = (Update W { m with state := menuView } msg).1.err ∧
    (Update W m msg).1.quitting = (Update W { m with state := menuView } msg).1.quitting ∧
    (((Update W { m with state := menuView } msg).1.state = menuView ∧
        (Update W m msg).1.state = m.state) ∨
      ((Update W { m with state := menuView } msg).1.state = fileSelectView ∧
        (Update W m msg).1.state = fileSelectView)) ∧
    (∀ i, W.listSelectedItem m.menu.list = some i → i.desc = "2" →
      (Update W m (Msg.KeyMsg "enter")).1.state = fileSelectView) ∧
    (m.quitting = false → View W m = "oopsie") := by
  have hview : m.quitting = false → View W m = "oopsie" := by
    intro hq
    simp [View, hq, h0, h1]
  have henter : ∀ i, W.listSelectedItem m.menu.list = some i → i.desc = "2" →
      (Update W m (Msg.KeyMsg "enter")).1.state = fileSelectView := by
    intro i hi hd
    rw [Update_menu_side W m (Msg.KeyMsg "enter") h1 (by simp) (by simp)]
    have ha : afterGlobal W m (Msg.KeyMsg "enter") = m := rfl
    rw [ha, updateMenu_enter_two W m i hi hd]
    simp [menuForward]
  by_cases hk : msg = Msg.KeyMsg "ctrl+c" ∨ msg = Msg.KeyMsg "q"
  · have hu : ∀ mm : model W, Update W mm msg = ({ mm with quitting := true }, Cmd.Quit) := by
      intro mm
      rcases hk with h | h <;> subst h <;> simp [Update]
    rw [hu m, hu { m with state := menuView }]
    exact ⟨rfl, rfl, rfl, rfl, rfl, Or.inl ⟨rfl, rfl⟩, henter, hview⟩
  · have hc : msg ≠ Msg.KeyMsg "ctrl+c" := fun h => hk (Or.inl h)
    have hq : msg ≠ Msg.KeyMsg "q" := fun h => hk (Or.inr h)
    have hm0 : ({ m with state := menuView } : model W).state ≠ fileSelectView := by
      show menuView ≠ fileSelectView
      decide
    have ha : afterGlobal W { m with state := menuView } msg
        = { afterGlobal W m msg with state := menuView } := by
      cases msg <;> rfl
    have hst : (afterGlobal W m msg).state = m.state := (afterGlobal_picker W m msg).2.1
    rw [Update_menu_side W m msg h1 hc hq,
      Update_menu_side W { m with state := menuView } msg hm0 hc hq, ha]
    obtain ⟨e1, e2, e3, e4, e5, e6⟩ := updateMenu_state W msg (afterGlobal W m msg) menuView
    refine ⟨e1.symm, e2.symm, e3.symm, e4.symm, e5.symm, ?_, henter, hview⟩
    rcases e6 with ⟨a, b⟩ | ⟨a, b⟩
    · exact Or.inl ⟨a, by rw [b, hst]⟩
    · exact Or.inr ⟨a, b⟩

/-- C17 at the model of `main` put in `logView`, cursor on entry "2":
"enter" leads to the picker screen, and the view is the placeholder. -/
theorem C17_state_outside_screens_witness :
    (Update demoWidgets demoLog (Msg.KeyMsg "enter")).1.state = fileSelectView ∧
    (Update demoWidgets demoLog (Msg.KeyMsg "enter")).1.menu.option = 2 ∧
    View demoWidgets demoLog = "oopsie" :=
  ⟨(C17_state_outside_screens demoWidgets demoLog (Msg.KeyMsg "enter")
      (by decide) (by decide)).2.2.2.2.2.2.1 { title := "Select log file", desc := "2" } rfl rfl,
   by decide,
   (C17_state_outside_screens demoWidgets demoLog (Msg.KeyMsg "enter")
      (by decide) (by decide)).2.2.2.2.2.2.2 rfl⟩

/-! ## C16: the menu option -/

/-- One step of `Update` keeps the option, or sets it to 2 on "enter" at
an item with description "2" outside `fileSelectView`. -/
theorem Update_option (W : Widgets) (m : model W) (msg : Msg W.Ext) :
    (Update W m msg).1.menu.option = m.menu.option ∨
    (m.state ≠ fileSelectView ∧ msg = Msg.KeyMsg "enter" ∧
      (∃ i, W.listSelectedItem m.menu.list = some i ∧ i.desc = "2") ∧
      (Update W m msg).1.menu.option = 2) := by
  by_cases hs : m.state = fileSelectView
  · left
    by_cases hk : msg = Msg.KeyMsg "ctrl+c" ∨ msg = Msg.KeyMsg "q" ∨ msg = Msg.KeyMsg "esc"
    · rcases hk with h | h | h
      · subst h; simp [Update]
      · subst h; simp [Update]
      · subst h
        rw [Update_key W m "esc" (by decide) (by decide)]
        simp [dispatch, updateFilePicker, hs]
    · have hc : msg ≠ Msg.KeyMsg "ctrl+c" := fun h => hk (Or.inl h)
      have hq : msg ≠ Msg.KeyMsg "q" := fun h => hk (Or.inr (Or.inl h))
      have he : msg ≠ Msg.KeyMsg "esc" := fun h => hk (Or.inr (Or.inr h))
      rw [Update_fileSelect_forward W m msg hs hc hq he]
      have hmenu := (afterGlobal_picker W m msg).2.2.1
      simp only [pickerForward]
      split <;> split <;> simp [hmenu]
  · by_cases hk : msg = Msg.KeyMsg "ctrl+c" ∨ msg = Msg.KeyMsg "q"
    · left
      rcases hk with h | h <;> subst h <;> simp [Update]
    · have hc : msg ≠ Msg.KeyMsg "ctrl+c" := fun h => hk (Or.inl h)
      have hq : msg ≠ Msg.KeyMsg "q" := fun h => hk (Or.inr h)
      rw [Update_menu_side W m msg hs hc hq]
      have hmenu := (afterGlobal_picker W m msg).2.2.1
      cases msg with
      | KeyMsg s =>
        have h1 : s ≠ "ctrl+c" := fun h => hc (by rw [h])
        have ha : afterGlobal W m (Msg.KeyMsg s) = m := rfl
        rw [ha]
        by_cases hen : s = "enter"
        · subst hen
          by_cases htwo : ∃ i, W.listSelectedItem m.menu.list = some i ∧ i.desc = "2"
          · right
            obtain ⟨i, hi, hd⟩ := htwo
            refine ⟨hs, rfl, ⟨i, hi, hd⟩, ?_⟩
            rw [updateMenu_enter_two W m i hi hd]
            simp [menuForward]
          · left
            rw [updateMenu_enter_other W m (fun i hi hd => htwo ⟨i, hi, hd⟩)]
            exact (menuForward_fields W _ m).2.2.1
        · left
          simp [updateMenu, h1, hen, menuForward]
      | clearErrorMsg =>
        left
        simp [updateMenu, menuForward, afterGlobal]
      | WindowSizeMsg w h =>
        left
        simp [updateMenu, menuForward, afterGlobal]
      | other e =>
        left
        simp [updateMenu, menuForward, afterGlobal]

/-- Where a marked message sits in a sequence that ends in `b`: at the end,
or inside the part before `b`. -/
theorem split_snoc {α : Type} (pre post ms : List α) (x b : α)
    (h : ms ++ [b] = pre ++ x :: post) :
    (post = [] ∧ ms = pre ∧ b = x) ∨ ∃ post1, post = post1 ++ [b] ∧ ms = pre ++ x :: post1 := by
  rcases List.eq_nil_or_concat post with hp | ⟨L, c, hp⟩
  · left
    subst hp
    have h2 : ms ++ [b] = pre ++ [x] := h
    have h3 := List.append_inj' h2 rfl
    exact ⟨rfl, h3.1, List.singleton_inj.mp h3.2⟩
  · right
    subst hp
    have h2 : ms ++ [b] = (pre ++ x :: L) ++ [c] := by
      rw [h]; simp
    have h3 := List.append_inj' h2 rfl
    have hbc : b = c := List.singleton_inj.mp h3.2
    exact ⟨L, by rw [hbc, List.concat_eq_append], h3.1⟩

/-- C16: in every model reached from the model of `main` (option 0)
through `Update`, the option is 0 or 2, and it is 2 exactly when at some
earlier step "enter" was processed in Menu state while the highlighted item
had description "2". -/
theorem C16_option_zero_or_two (W : Widgets) (l : W.ListModel) (fp : W.PickerModel)
    (msgs : List (Msg W.Ext)) :
    ((run W (initialModel W l fp) msgs).menu.option = 0 ∨
      (run W (initialModel W l fp) msgs).menu.option = 2) ∧
    ((run W (initialModel W l fp) msgs).menu.option = 2 ↔
      ∃ pre post, msgs = pre ++ Msg.KeyMsg "enter" :: post ∧
        (run W (initialModel W l fp) pre).state = menuView ∧
        ∃ i, W.listSelectedItem (run W (initialModel W l fp) pre).menu.list = some i ∧
          i.desc = "2") := by
  have key : ((run W (initialModel W l fp) msgs).menu.option = 0 ∧
      ¬ ∃ pre post, msgs = pre ++ Msg.KeyMsg "enter" :: post ∧
        (run W (initialModel W l fp) pre).state = menuView ∧
        ∃ i, W.listSelectedItem (run W (initialModel W l fp) pre).menu.list = some i ∧
          i.desc = "2") ∨
      ((run W (initialModel W l fp) msgs).menu.option = 2 ∧
      ∃ pre post, msgs = pre ++ Msg.KeyMsg "enter" :: post ∧
        (run W (initialModel W l fp) pre).state = menuView ∧
        ∃ i, W.listSelectedItem (run W (initialModel W l fp) pre).menu.list = some i ∧
          i.desc = "2") := by
    induction msgs using List.reverseRecOn with
    | nil =>
      left
      refine ⟨rfl, ?_⟩
      rintro ⟨pre, post, h, -⟩
      cases pre <;> simp at h
    | append_singleton ms msg ih =>
      rw [run_snoc]
      rcases ih with ⟨h0, hno⟩ | ⟨h2, pre, post, hms, hst, hsel⟩
      · rcases Update_option W (run W (initialModel W l fp) ms) msg with h | h
        · left
          refine ⟨by rw [h]; exact h0, ?_⟩
          rintro ⟨pre, post, hsplit, hst, i, hi, hd⟩
          rcases split_snoc pre post ms (Msg.KeyMsg "enter") msg hsplit with
            ⟨-, hpre, hmsg⟩ | ⟨post1, -, hms⟩
          · subst hpre
            subst hmsg
            have hs1 : (run W (initialModel W l fp) ms).state ≠ fileSelectView := by
              rw [hst]; decide
            have h2 : (Update W (run W (initialModel W l fp) ms)
                (Msg.KeyMsg "enter")).1.menu.option = 2 := by
              rw [Update_menu_side W _ (Msg.KeyMsg "enter") hs1 (by simp) (by simp)]
              have ha : afterGlobal W (run W (initialModel W l fp) ms) (Msg.KeyMsg "enter")
                  = run W (initialModel W l fp) ms := rfl
              rw [ha, updateMenu_enter_two W _ i hi hd]
              simp [menuForward]
            rw [h, h0] at h2
            exact absurd h2 (by decide)
          · exact hno ⟨pre, post1, hms, hst, i, hi, hd⟩
        · right
          obtain ⟨hs1, hmsg, hsel, hopt⟩ := h
          refine ⟨hopt, ms, [], by rw [hmsg], ?_, hsel⟩
          rcases run_state W l fp ms with hm | hm
          · exact hm
          · exact absurd hm hs1
      · right
        refine ⟨?_, pre, post ++ [msg], by rw [hms]; simp, hst, hsel⟩
        rcases Update_option W (run W (initialModel W l fp) ms) msg with h | h
        · rw [h]; exact h2
        · exact h.2.2.2
  rcases key with ⟨h0, hno⟩ | ⟨h2, hex⟩
  · refine ⟨Or.inl h0, ?_⟩
    constructor
    · intro h
      rw [h0] at h
      exact absurd h (by decide)
    · intro h
      exact absurd h hno
  · exact ⟨Or.inr h2, fun _ => hex, fun _ => h2⟩

end Bubblog
